import Mathlib

/-!
Shallow embedding of the temporal status-stabilization controller of the
Face-Mask-Detection-Using-C repository: the function `apply_temporal_smoothing`
together with the enum `mask_status_t` and the per-face record
`face_detection_t`.  The C function's four `static` locals (the process-wide
lock state) are modelled as an explicit `smoothing_globals` record threaded
through every call; the nullable face pointer is an `Option face_detection_t`;
C `int` fields are `Int`.
-/

/-- The `mask_status_t` enum: UNKNOWN = 0 is the "no lock" sentinel. -/
inductive mask_status_t where
  | unknown
  | with_mask
  | without_mask
  | incorrect_mask
deriving DecidableEq, Repr

/-- The per-face record `face_detection_t`, restricted to the fields that the
smoothing function reads or writes (geometry and confidence fields are never
touched by it and are omitted). -/
structure face_detection_t where
  mask_history : List mask_status_t
  history_index : Int
  history_count : Int
  stable_status : mask_status_t
  stable_count : Int
deriving DecidableEq, Repr

/-- The four function-local `static` variables of `apply_temporal_smoothing`
plus the static debug counter: one process-wide state shared by all faces. -/
structure smoothing_globals where
  current_locked_status : mask_status_t
  lock_frames_remaining : Int
  same_result_count : Int
  previous_result : mask_status_t
  debug_frame_count : Int
deriving DecidableEq, Repr

/-- Initial values of the static locals (C zero/explicit initializers). -/
def initial_globals : smoothing_globals :=
  { current_locked_status := mask_status_t.unknown
    lock_frames_remaining := 0
    same_result_count := 0
    previous_result := mask_status_t.unknown
    debug_frame_count := 0 }

/-- Return value of one call: the reported status, the (possibly mutated)
face record behind the pointer, and the static locals after the call. -/
structure smoothing_result where
  status : mask_status_t
  face : Option face_detection_t
  globals : smoothing_globals
deriving DecidableEq, Repr

/-- The seed branch (`face->history_count == 0`): fill the 10-slot history
with the current status, set the stable fields, reset the indices. -/
def seed_face (face : face_detection_t) (current_status : mask_status_t) :
    face_detection_t :=
  { face with
      mask_history := List.replicate 10 current_status
      history_index := 0
      history_count := 1
      stable_status := current_status
      stable_count := 1 }

/-- The consecutive-identical-result counting at the top of every non-seed
call: increment `same_result_count` when the input repeats, otherwise reset
it to 1 and record the new `previous_result`. -/
def track_streak (g : smoothing_globals) (current_status : mask_status_t) :
    smoothing_globals :=
  if current_status = g.previous_result then
    { g with same_result_count := g.same_result_count + 1 }
  else
    { g with same_result_count := 1, previous_result := current_status }

/-- Lock duration chosen when (re)locking: 90 frames for WITH_MASK, 60
otherwise. -/
def lock_duration (s : mask_status_t) : Int :=
  if s = mask_status_t.with_mask then 90 else 60

/-- The fall-through tail of the function: bump the static debug counter and
return the per-face stable status when it is not the sentinel, else the raw
input. -/
def fallback_return (face : face_detection_t) (current_status : mask_status_t)
    (g : smoothing_globals) : smoothing_result :=
  let g' := { g with debug_frame_count := g.debug_frame_count + 1 }
  if face.stable_status ≠ mask_status_t.unknown then
    ⟨face.stable_status, some face, g'⟩
  else
    ⟨current_status, some face, g'⟩

/-- The active-lock part of the function, entered with `lock_frames_remaining`
already decremented (argument `g2`): fast mask-removal override while time
remains, re-lock or extension when expired, falling through to the fallback
in the expired case with streak at least 12 and an input equal to the lock. -/
def locked_update (face : face_detection_t) (current_status : mask_status_t)
    (g2 : smoothing_globals) : smoothing_result :=
  if g2.lock_frames_remaining > 0 then
    if g2.current_locked_status = mask_status_t.with_mask ∧
        current_status = mask_status_t.without_mask ∧
        g2.same_result_count ≥ 8 then
      ⟨current_status, some face,
        { g2 with current_locked_status := current_status,
                  lock_frames_remaining := 60 }⟩
    else
      ⟨g2.current_locked_status, some face, g2⟩
  else
    if g2.same_result_count ≥ 12 ∧
        current_status ≠ g2.current_locked_status then
      ⟨current_status, some face,
        { g2 with current_locked_status := current_status,
                  lock_frames_remaining := lock_duration current_status }⟩
    else if g2.same_result_count < 12 then
      ⟨g2.current_locked_status, some face,
        { g2 with lock_frames_remaining := 20 }⟩
    else
      fallback_return face current_status g2

/-- The whole of `apply_temporal_smoothing`: null-pointer early return, seed
branch on first call for the face, streak tracking, then the lock logic with
the no-lock establishment branch, then the fallback. -/
def apply_temporal_smoothing (face? : Option face_detection_t)
    (current_status : mask_status_t) (g : smoothing_globals) :
    smoothing_result :=
  match face? with
  | none => ⟨current_status, none, g⟩
  | some face =>
    if face.history_count = 0 then
      ⟨current_status, some (seed_face face current_status), g⟩
    else
      let g1 := track_streak g current_status
      if g1.current_locked_status ≠ mask_status_t.unknown then
        locked_update face current_status
          { g1 with lock_frames_remaining := g1.lock_frames_remaining - 1 }
      else if g1.same_result_count ≥ 5 then
        ⟨current_status, some face,
          { g1 with current_locked_status := current_status,
                    lock_frames_remaining := lock_duration current_status }⟩
      else
        fallback_return face current_status g1

/-- Iterate the smoothing call over a list of raw per-frame statuses,
starting from a face pointer and a global-state value; returns the list of
reported statuses in order together with the final face and globals. -/
def run_smoothing (st : Option face_detection_t × smoothing_globals) :
    List mask_status_t →
      List mask_status_t × (Option face_detection_t × smoothing_globals)
  | [] => ([], st)
  | r :: rs =>
    let res := apply_temporal_smoothing st.1 r st.2
    let rest := run_smoothing (res.face, res.globals) rs
    (res.status :: rest.1, rest.2)

/-! ### Concrete values used in witnesses and counterexamples -/

def fresh_face : face_detection_t :=
  { mask_history := List.replicate 10 mask_status_t.unknown
    history_index := 0
    history_count := 0
    stable_status := mask_status_t.unknown
    stable_count := 0 }

def face1 : face_detection_t :=
  { mask_history := List.replicate 10 mask_status_t.with_mask
    history_index := 0
    history_count := 1
    stable_status := mask_status_t.with_mask
    stable_count := 1 }

def face2 : face_detection_t :=
  { mask_history := List.replicate 10 mask_status_t.without_mask
    history_index := 0
    history_count := 1
    stable_status := mask_status_t.without_mask
    stable_count := 1 }

def gC1 : smoothing_globals :=
  ⟨mask_status_t.unknown, 0, 4, mask_status_t.with_mask, 0⟩

def gC2 : smoothing_globals :=
  ⟨mask_status_t.with_mask, 10, 7, mask_status_t.without_mask, 0⟩

def gC3 : smoothing_globals :=
  ⟨mask_status_t.with_mask, 1, 11, mask_status_t.without_mask, 0⟩

def gC4 : smoothing_globals :=
  ⟨mask_status_t.with_mask, 5, 3, mask_status_t.with_mask, 0⟩

def gC6 : smoothing_globals :=
  ⟨mask_status_t.with_mask, 0, 12, mask_status_t.with_mask, 0⟩

/-! ### Helper lemmas -/

@[simp]
lemma track_streak_locked (g : smoothing_globals) (r : mask_status_t) :
    (track_streak g r).current_locked_status = g.current_locked_status := by
  unfold track_streak; split <;> rfl

@[simp]
lemma track_streak_remaining (g : smoothing_globals) (r : mask_status_t) :
    (track_streak g r).lock_frames_remaining = g.lock_frames_remaining := by
  unfold track_streak; split <;> rfl

@[simp]
lemma track_streak_previous (g : smoothing_globals) (r : mask_status_t) :
    (track_streak g r).previous_result = r := by
  unfold track_streak
  split
  · rename_i h
    exact h.symm
  · rfl

lemma fallback_return_face (face : face_detection_t) (r : mask_status_t)
    (g : smoothing_globals) : (fallback_return face r g).face = some face := by
  unfold fallback_return; split <;> rfl

lemma locked_update_face (face : face_detection_t) (r : mask_status_t)
    (g2 : smoothing_globals) : (locked_update face r g2).face = some face := by
  unfold locked_update
  split_ifs <;> first | rfl | exact fallback_return_face ..

lemma smoothing_preserves_face (face : face_detection_t) (r : mask_status_t)
    (g : smoothing_globals) (h : face.history_count ≠ 0) :
    (apply_temporal_smoothing (some face) r g).face = some face := by
  unfold apply_temporal_smoothing
  simp only [h, if_neg, if_false]
  split_ifs <;> first | rfl | exact locked_update_face .. | exact fallback_return_face ..

/-! ### Branch characterization lemmas -/

lemma apply_smoothing_locked (face : face_detection_t) (r : mask_status_t)
    (g : smoothing_globals) (hface : face.history_count ≠ 0)
    (hlock : g.current_locked_status ≠ mask_status_t.unknown) :
    apply_temporal_smoothing (some face) r g =
      locked_update face r
        { track_streak g r with
            lock_frames_remaining := (track_streak g r).lock_frames_remaining - 1 } := by
  have hl1 : (track_streak g r).current_locked_status ≠ mask_status_t.unknown := by
    simpa using hlock
  simp only [apply_temporal_smoothing, if_neg hface, if_pos hl1]

lemma apply_smoothing_establish (face : face_detection_t) (r : mask_status_t)
    (g : smoothing_globals) (hface : face.history_count ≠ 0)
    (hlock : g.current_locked_status = mask_status_t.unknown)
    (h5 : 5 ≤ (track_streak g r).same_result_count) :
    apply_temporal_smoothing (some face) r g =
      ⟨r, some face,
        { track_streak g r with
            current_locked_status := r,
            lock_frames_remaining := lock_duration r }⟩ := by
  have hl1 : ¬ (track_streak g r).current_locked_status ≠ mask_status_t.unknown := by
    simp [hlock]
  simp only [apply_temporal_smoothing, if_neg hface, if_neg hl1, if_pos h5]

lemma apply_smoothing_no_lock_fallback (face : face_detection_t)
    (r : mask_status_t) (g : smoothing_globals) (hface : face.history_count ≠ 0)
    (hlock : g.current_locked_status = mask_status_t.unknown)
    (h5 : (track_streak g r).same_result_count < 5) :
    apply_temporal_smoothing (some face) r g =
      fallback_return face r (track_streak g r) := by
  have hl1 : ¬ (track_streak g r).current_locked_status ≠ mask_status_t.unknown := by
    simp [hlock]
  have h5' : ¬ 5 ≤ (track_streak g r).same_result_count := by omega
  simp only [apply_temporal_smoothing, if_neg hface, if_neg hl1, if_neg h5']

lemma locked_update_fast (face : face_detection_t) (r : mask_status_t)
    (g2 : smoothing_globals) (hrem : g2.lock_frames_remaining > 0)
    (hc : g2.current_locked_status = mask_status_t.with_mask ∧
      r = mask_status_t.without_mask ∧ g2.same_result_count ≥ 8) :
    locked_update face r g2 =
      ⟨r, some face,
        { g2 with current_locked_status := r, lock_frames_remaining := 60 }⟩ := by
  unfold locked_update
  rw [if_pos hrem, if_pos hc]

lemma locked_update_hold (face : face_detection_t) (r : mask_status_t)
    (g2 : smoothing_globals) (hrem : g2.lock_frames_remaining > 0)
    (hc : ¬ (g2.current_locked_status = mask_status_t.with_mask ∧
      r = mask_status_t.without_mask ∧ g2.same_result_count ≥ 8)) :
    locked_update face r g2 = ⟨g2.current_locked_status, some face, g2⟩ := by
  unfold locked_update
  rw [if_pos hrem, if_neg hc]

lemma locked_update_expired_switch (face : face_detection_t) (r : mask_status_t)
    (g2 : smoothing_globals) (hrem : ¬ g2.lock_frames_remaining > 0)
    (h12 : g2.same_result_count ≥ 12)
    (hne : r ≠ g2.current_locked_status) :
    locked_update face r g2 =
      ⟨r, some face,
        { g2 with current_locked_status := r,
                  lock_frames_remaining := lock_duration r }⟩ := by
  unfold locked_update
  rw [if_neg hrem, if_pos ⟨h12, hne⟩]

lemma locked_update_expired_extend (face : face_detection_t) (r : mask_status_t)
    (g2 : smoothing_globals) (hrem : ¬ g2.lock_frames_remaining > 0)
    (h12 : g2.same_result_count < 12) :
    locked_update face r g2 =
      ⟨g2.current_locked_status, some face,
        { g2 with lock_frames_remaining := 20 }⟩ := by
  unfold locked_update
  rw [if_neg hrem, if_neg (by omega : ¬ (g2.same_result_count ≥ 12 ∧
    r ≠ g2.current_locked_status)), if_pos h12]

lemma locked_update_gap (face : face_detection_t) (r : mask_status_t)
    (g2 : smoothing_globals) (hrem : ¬ g2.lock_frames_remaining > 0)
    (h12 : g2.same_result_count ≥ 12)
    (heq : r = g2.current_locked_status) :
    locked_update face r g2 = fallback_return face r g2 := by
  unfold locked_update
  rw [if_neg hrem,
    if_neg (by simp [heq] : ¬ (g2.same_result_count ≥ 12 ∧
      r ≠ g2.current_locked_status)),
    if_neg (by omega : ¬ g2.same_result_count < 12)]

/-- C1: with no active lock and post-tracking streak at least 5, the call
locks onto the raw input with duration 90 for WITH_MASK and 60 otherwise
and returns it; with streak below 5 the lock stays unset. -/
theorem C1_no_lock_establishment (face : face_detection_t)
    (g : smoothing_globals) (r : mask_status_t)
    (hface : face.history_count ≠ 0)
    (hlock : g.current_locked_status = mask_status_t.unknown) :
    (5 ≤ (track_streak g r).same_result_count →
      (apply_temporal_smoothing (some face) r g).globals.current_locked_status = r ∧
      (apply_temporal_smoothing (some face) r g).globals.lock_frames_remaining
        = (if r = mask_status_t.with_mask then 90 else 60) ∧
      (apply_temporal_smoothing (some face) r g).status = r) ∧
    ((track_streak g r).same_result_count < 5 →
      (apply_temporal_smoothing (some face) r g).globals.current_locked_status
        = mask_status_t.unknown) := by
  constructor
  · intro h5
    rw [apply_smoothing_establish face r g hface hlock h5]
    exact ⟨rfl, by simp [lock_duration], rfl⟩
  · intro h5
    rw [apply_smoothing_no_lock_fallback face r g hface hlock h5]
    unfold fallback_return
    split <;> simpa using hlock

/-- C2: locked on WITH_MASK with time left after the decrement, a
WITHOUT_MASK input with streak at least 8 switches the lock to WITHOUT_MASK
with 60 frames and returns it; with streak below 8 the call returns the held
WITH_MASK lock for any raw input. -/
theorem C2_fast_exit_override (face : face_detection_t)
    (g : smoothing_globals) (r : mask_status_t)
    (hface : face.history_count ≠ 0)
    (hlock : g.current_locked_status = mask_status_t.with_mask)
    (hrem : g.lock_frames_remaining - 1 > 0) :
    (r = mask_status_t.without_mask →
      8 ≤ (track_streak g r).same_result_count →
      (apply_temporal_smoothing (some face) r g).globals.current_locked_status
          = mask_status_t.without_mask ∧
      (apply_temporal_smoothing (some face) r g).globals.lock_frames_remaining = 60 ∧
      (apply_temporal_smoothing (some face) r g).status = mask_status_t.without_mask) ∧
    ((track_streak g r).same_result_count < 8 →
      (apply_temporal_smoothing (some face) r g).status = mask_status_t.with_mask ∧
      (apply_temporal_smoothing (some face) r g).globals.current_locked_status
          = mask_status_t.with_mask) := by
  have hlockne : g.current_locked_status ≠ mask_status_t.unknown := by
    simp [hlock]
  have hrem2 : ({ track_streak g r with
      lock_frames_remaining := (track_streak g r).lock_frames_remaining - 1 }
        : smoothing_globals).lock_frames_remaining > 0 := by
    show (track_streak g r).lock_frames_remaining - 1 > 0
    rw [track_streak_remaining]
    exact hrem
  constructor
  · intro hr h8
    rw [apply_smoothing_locked face r g hface hlockne,
      locked_update_fast face r _ hrem2 ⟨by simp [hlock], hr, h8⟩]
    exact ⟨hr, rfl, hr⟩
  · intro h8
    have hno : ¬ (({ track_streak g r with
        lock_frames_remaining := (track_streak g r).lock_frames_remaining - 1 }
          : smoothing_globals).current_locked_status = mask_status_t.with_mask ∧
        r = mask_status_t.without_mask ∧
        ({ track_streak g r with
          lock_frames_remaining := (track_streak g r).lock_frames_remaining - 1 }
            : smoothing_globals).same_result_count ≥ 8) := by
      intro hc
      have h82 : (track_streak g r).same_result_count ≥ 8 := hc.2.2
      omega
    rw [apply_smoothing_locked face r g hface hlockne,
      locked_update_hold face r _ hrem2 hno]
    exact ⟨by simp [hlock], by simp [hlock]⟩

/-- C3: with an active lock expired after the decrement, a streak of at least
12 on a status different from the lock re-locks onto the raw input with
duration 90 or 60 and returns it; a streak below 12 keeps the locked value,
extends the countdown to 20 and returns the held status. -/
theorem C3_expired_lock_switch_or_extend (face : face_detection_t)
    (g : smoothing_globals) (r : mask_status_t)
    (hface : face.history_count ≠ 0)
    (hlock : g.current_locked_status ≠ mask_status_t.unknown)
    (hrem : g.lock_frames_remaining - 1 ≤ 0) :
    (12 ≤ (track_streak g r).same_result_count →
      r ≠ g.current_locked_status →
      (apply_temporal_smoothing (some face) r g).globals.current_locked_status = r ∧
      (apply_temporal_smoothing (some face) r g).globals.lock_frames_remaining
        = (if r = mask_status_t.with_mask then 90 else 60) ∧
      (apply_temporal_smoothing (some face) r g).status = r) ∧
    ((track_streak g r).same_result_count < 12 →
      (apply_temporal_smoothing (some face) r g).globals.current_locked_status
          = g.current_locked_status ∧
      (apply_temporal_smoothing (some face) r g).globals.lock_frames_remaining = 20 ∧
      (apply_temporal_smoothing (some face) r g).status
          = g.current_locked_status) := by
  have hrem2 : ¬ ({ track_streak g r with
      lock_frames_remaining := (track_streak g r).lock_frames_remaining - 1 }
        : smoothing_globals).lock_frames_remaining > 0 := by
    show ¬ (track_streak g r).lock_frames_remaining - 1 > 0
    rw [track_streak_remaining]
    omega
  constructor
  · intro h12 hne
    have hne' : r ≠ ({ track_streak g r with
        lock_frames_remaining := (track_streak g r).lock_frames_remaining - 1 }
          : smoothing_globals).current_locked_status := by
      simpa using hne
    rw [apply_smoothing_locked face r g hface hlock,
      locked_update_expired_switch face r _ hrem2 h12 hne']
    exact ⟨rfl, by simp [lock_duration], rfl⟩
  · intro h12
    rw [apply_smoothing_locked face r g hface hlock,
      locked_update_expired_extend face r _ hrem2 h12]
    exact ⟨by simp, rfl, by simp⟩


/-- C6: expired lock with streak at least 12 and raw input equal to the lock
fires no transition: the locked value is unchanged and the call falls through
to the fallback, returning the stable status when it is not the sentinel and
the raw input otherwise. -/
theorem C6_expired_gap_fallback (face : face_detection_t)
    (g : smoothing_globals) (r : mask_status_t)
    (hface : face.history_count ≠ 0)
    (hlock : g.current_locked_status ≠ mask_status_t.unknown)
    (hrem : g.lock_frames_remaining - 1 ≤ 0)
    (h12 : 12 ≤ (track_streak g r).same_result_count)
    (heq : r = g.current_locked_status) :
    (apply_temporal_smoothing (some face) r g).globals.current_locked_status
        = g.current_locked_status ∧
    (apply_temporal_smoothing (some face) r g).status
      = (if face.stable_status ≠ mask_status_t.unknown then face.stable_status
         else r) := by
  have hrem2 : ¬ ({ track_streak g r with
      lock_frames_remaining := (track_streak g r).lock_frames_remaining - 1 }
        : smoothing_globals).lock_frames_remaining > 0 := by
    show ¬ (track_streak g r).lock_frames_remaining - 1 > 0
    rw [track_streak_remaining]
    omega
  have heq' : r = ({ track_streak g r with
      lock_frames_remaining := (track_streak g r).lock_frames_remaining - 1 }
        : smoothing_globals).current_locked_status := by
    simpa using heq
  rw [apply_smoothing_locked face r g hface hlock,
    locked_update_gap face r _ hrem2 h12 heq']
  by_cases h : face.stable_status ≠ mask_status_t.unknown
  · simp [fallback_return, h]
  · simp [fallback_return, h]

/-- C7: the smoothing function is total: for every face pointer, raw input
and global state it returns one of the four enum values. -/
theorem C7_totality (face? : Option face_detection_t) (r : mask_status_t)
    (g : smoothing_globals) :
    (apply_temporal_smoothing face? r g).status = mask_status_t.unknown ∨
    (apply_temporal_smoothing face? r g).status = mask_status_t.with_mask ∨
    (apply_temporal_smoothing face? r g).status = mask_status_t.without_mask ∨
    (apply_temporal_smoothing face? r g).status = mask_status_t.incorrect_mask := by
  cases h : (apply_temporal_smoothing face? r g).status <;> simp

/-- C8: on every call after the first one for a face, the per-face fields
are left exactly as they were. -/
theorem C8_face_fields_frozen (face : face_detection_t) (g : smoothing_globals)
    (r : mask_status_t) (hface : face.history_count ≠ 0) :
    (apply_temporal_smoothing (some face) r g).face = some face :=
  smoothing_preserves_face face r g hface

/-- C10: a null face pointer makes the call return the raw input unchanged
and leave both the face pointer and the process-wide lock state untouched. -/
theorem C10_null_face (r : mask_status_t) (g : smoothing_globals) :
    apply_temporal_smoothing none r g =
      ⟨r, none, g⟩ := rfl

lemma feed_locked_step (face : face_detection_t) (g : smoothing_globals)
    (R : mask_status_t) (hface : face.history_count ≠ 0)
    (hR : R ≠ mask_status_t.unknown)
    (hstable : face.stable_status = R ∨
      face.stable_status = mask_status_t.unknown)
    (hlock : g.current_locked_status = R) :
    (apply_temporal_smoothing (some face) R g).status = R ∧
    (apply_temporal_smoothing (some face) R g).face = some face ∧
    (apply_temporal_smoothing (some face) R g).globals.current_locked_status
      = R := by
  have hlockne : g.current_locked_status ≠ mask_status_t.unknown := hlock ▸ hR
  have hG2lock : ({ track_streak g R with
      lock_frames_remaining := (track_streak g R).lock_frames_remaining - 1 }
        : smoothing_globals).current_locked_status = R := by
    simpa using hlock
  rw [apply_smoothing_locked face R g hface hlockne]
  by_cases hrem : ({ track_streak g R with
      lock_frames_remaining := (track_streak g R).lock_frames_remaining - 1 }
        : smoothing_globals).lock_frames_remaining > 0
  · have hno : ¬ (({ track_streak g R with
        lock_frames_remaining := (track_streak g R).lock_frames_remaining - 1 }
          : smoothing_globals).current_locked_status = mask_status_t.with_mask ∧
        R = mask_status_t.without_mask ∧
        ({ track_streak g R with
          lock_frames_remaining := (track_streak g R).lock_frames_remaining - 1 }
            : smoothing_globals).same_result_count ≥ 8) := by
      rintro ⟨h1, h2, -⟩
      rw [hG2lock] at h1
      rw [h1] at h2
      exact absurd h2 (by simp)
    rw [locked_update_hold face R _ hrem hno]
    exact ⟨hG2lock, rfl, hG2lock⟩
  · by_cases h12 : ({ track_streak g R with
        lock_frames_remaining := (track_streak g R).lock_frames_remaining - 1 }
          : smoothing_globals).same_result_count < 12
    · rw [locked_update_expired_extend face R _ hrem h12]
      exact ⟨hG2lock, rfl, hG2lock⟩
    · rw [locked_update_gap face R _ hrem (by omega) hG2lock.symm]
      unfold fallback_return
      rcases hstable with hs | hs
      · rw [if_pos (by rw [hs]; exact hR)]
        exact ⟨hs, rfl, by simpa using hlock⟩
      · rw [if_neg (by rw [hs]; simp)]
        exact ⟨rfl, rfl, by simpa using hlock⟩

/-- C4 (amended): once locked on a status R, feeding R on every subsequent
call returns R on every call, provided the per-face stable status is R or
the sentinel; without that proviso, a call reaching the expired-lock gap
(countdown at most 0 after the decrement, streak at least 12) returns the
frozen stable status instead of R. -/
theorem C4_idempotence_amended (face : face_detection_t) (R : mask_status_t)
    (hface : face.history_count ≠ 0) (hR : R ≠ mask_status_t.unknown)
    (hstable : face.stable_status = R ∨
      face.stable_status = mask_status_t.unknown) :
    ∀ (l : List mask_status_t) (g : smoothing_globals),
      g.current_locked_status = R → (∀ x ∈ l, x = R) →
      ∀ out ∈ (run_smoothing (some face, g) l).1, out = R := by
  intro l
  induction l with
  | nil =>
    intro g _ _ out hout
    simp [run_smoothing] at hout
  | cons r rs ih =>
    intro g hlock hl out hout
    have hr : r = R := hl r (List.mem_cons_self r rs)
    subst hr
    have step := feed_locked_step face g r hface hR hstable hlock
    simp only [run_smoothing] at hout
    rcases List.mem_cons.mp hout with hout1 | hout2
    · rw [hout1]
      exact step.1
    · rw [step.2.1] at hout2
      exact ih (apply_temporal_smoothing (some face) r g).globals step.2.2
        (fun x hx => hl x (List.mem_cons_of_mem r hx)) out hout2

lemma locked_step_stays (face : face_detection_t) (g : smoothing_globals)
    (r : mask_status_t) (hface : face.history_count ≠ 0)
    (hlock : g.current_locked_status ≠ mask_status_t.unknown)
    (hr : r ≠ mask_status_t.unknown) :
    (apply_temporal_smoothing (some face) r g).globals.current_locked_status
      ≠ mask_status_t.unknown := by
  rw [apply_smoothing_locked face r g hface hlock]
  by_cases hrem : ({ track_streak g r with
      lock_frames_remaining := (track_streak g r).lock_frames_remaining - 1 }
        : smoothing_globals).lock_frames_remaining > 0
  · by_cases hfast : ({ track_streak g r with
        lock_frames_remaining := (track_streak g r).lock_frames_remaining - 1 }
          : smoothing_globals).current_locked_status = mask_status_t.with_mask ∧
        r = mask_status_t.without_mask ∧
        ({ track_streak g r with
          lock_frames_remaining := (track_streak g r).lock_frames_remaining - 1 }
            : smoothing_globals).same_result_count ≥ 8
    · rw [locked_update_fast face r _ hrem hfast]
      exact hr
    · rw [locked_update_hold face r _ hrem hfast]
      simpa using hlock
  · by_cases hsw : ({ track_streak g r with
        lock_frames_remaining := (track_streak g r).lock_frames_remaining - 1 }
          : smoothing_globals).same_result_count ≥ 12 ∧
        r ≠ ({ track_streak g r with
          lock_frames_remaining := (track_streak g r).lock_frames_remaining - 1 }
            : smoothing_globals).current_locked_status
    · rw [locked_update_expired_switch face r _ hrem hsw.1 hsw.2]
      exact hr
    · by_cases h12 : ({ track_streak g r with
          lock_frames_remaining := (track_streak g r).lock_frames_remaining - 1 }
            : smoothing_globals).same_result_count < 12
      · rw [locked_update_expired_extend face r _ hrem h12]
        simpa using hlock
      · have h12' : ({ track_streak g r with
            lock_frames_remaining := (track_streak g r).lock_frames_remaining - 1 }
              : smoothing_globals).same_result_count ≥ 12 := by omega
        have heq : r = ({ track_streak g r with
            lock_frames_remaining := (track_streak g r).lock_frames_remaining - 1 }
              : smoothing_globals).current_locked_status := by
          by_contra hne
          exact hsw ⟨h12', hne⟩
        rw [locked_update_gap face r _ hrem h12' heq]
        unfold fallback_return
        split <;> simpa using hlock

/-- C5 (amended): once the locked status is non-sentinel, it stays
non-sentinel under any sequence of raw inputs drawn from the three
non-sentinel enum values; with the sentinel UNKNOWN allowed as a raw input,
the expired-lock switch rule (streak at least 12, countdown expired) can
re-lock onto UNKNOWN and so return the locked status to the sentinel. -/
theorem C5_no_unlock_amended (face : face_detection_t)
    (hface : face.history_count ≠ 0) :
    ∀ (l : List mask_status_t) (g : smoothing_globals),
      g.current_locked_status ≠ mask_status_t.unknown →
      (∀ x ∈ l, x ≠ mask_status_t.unknown) →
      (run_smoothing (some face, g) l).2.2.current_locked_status
        ≠ mask_status_t.unknown := by
  intro l
  induction l with
  | nil =>
    intro g hlock _
    simpa [run_smoothing] using hlock
  | cons r rs ih =>
    intro g hlock hl
    have hr : r ≠ mask_status_t.unknown := hl r (List.mem_cons_self r rs)
    simp only [run_smoothing]
    rw [smoothing_preserves_face face r g hface]
    exact ih (apply_temporal_smoothing (some face) r g).globals
      (locked_step_stays face g r hface hlock hr)
      (fun x hx => hl x (List.mem_cons_of_mem r hx))

lemma hold_after_lock (faceB : face_detection_t) (rB : mask_status_t)
    (G : smoothing_globals) (hB : faceB.history_count ≠ 0)
    (hlock : G.current_locked_status ≠ mask_status_t.unknown)
    (hprev : G.previous_result = G.current_locked_status)
    (hrem : G.lock_frames_remaining > 1) :
    (apply_temporal_smoothing (some faceB) rB G).status
      = G.current_locked_status := by
  rw [apply_smoothing_locked faceB rB G hB hlock]
  have hrem2 : ({ track_streak G rB with
      lock_frames_remaining := (track_streak G rB).lock_frames_remaining - 1 }
        : smoothing_globals).lock_frames_remaining > 0 := by
    show (track_streak G rB).lock_frames_remaining - 1 > 0
    rw [track_streak_remaining]
    omega
  have hno : ¬ (({ track_streak G rB with
      lock_frames_remaining := (track_streak G rB).lock_frames_remaining - 1 }
        : smoothing_globals).current_locked_status = mask_status_t.with_mask ∧
      rB = mask_status_t.without_mask ∧
      ({ track_streak G rB with
        lock_frames_remaining := (track_streak G rB).lock_frames_remaining - 1 }
          : smoothing_globals).same_result_count ≥ 8) := by
    rintro ⟨h1, h2, h3⟩
    have h1' : (track_streak G rB).current_locked_status
        = mask_status_t.with_mask := h1
    rw [track_streak_locked] at h1'
    have hcount : (track_streak G rB).same_result_count = 1 := by
      unfold track_streak
      rw [if_neg]
      rw [h2, hprev, h1']
      simp
    have h3' : (track_streak G rB).same_result_count ≥ 8 := h3
    omega
  rw [locked_update_hold faceB rB _ hrem2 hno]
  simp

/-- C9: the lock fields are process-wide, not per-face: a lock just
established by a call on face A fixes the status returned by the next call
on any other face B, whatever raw input B's call carries. -/
theorem C9_shared_lock_across_faces (faceA faceB : face_detection_t)
    (g : smoothing_globals) (rA rB : mask_status_t)
    (hA : faceA.history_count ≠ 0) (hB : faceB.history_count ≠ 0)
    (hlock : g.current_locked_status = mask_status_t.unknown)
    (hrA : rA ≠ mask_status_t.unknown)
    (h5 : 5 ≤ (track_streak g rA).same_result_count) :
    (apply_temporal_smoothing (some faceA) rA g).status = rA ∧
    (apply_temporal_smoothing (some faceB) rB
        (apply_temporal_smoothing (some faceA) rA g).globals).status = rA := by
  have hest := apply_smoothing_establish faceA rA g hA hlock h5
  have h1 : (apply_temporal_smoothing (some faceA) rA g).globals.current_locked_status
      = rA := by rw [hest]
  have h2 : (apply_temporal_smoothing (some faceA) rA g).globals.previous_result
      = rA := by
    rw [hest]
    show (track_streak g rA).previous_result = rA
    exact track_streak_previous g rA
  have h3 : (apply_temporal_smoothing (some faceA) rA g).globals.lock_frames_remaining
      = lock_duration rA := by rw [hest]
  refine ⟨by rw [hest], ?_⟩
  rw [hold_after_lock faceB rB _ hB (by rw [h1]; exact hrA)
    (by rw [h1, h2]) (by rw [h3]; unfold lock_duration; split <;> omega), h1]




set_option maxRecDepth 10000 in
/-- C4 counterexample: seed a face with WITHOUT_MASK, lock onto WITH_MASK
with five consecutive WITH_MASK frames, then keep feeding the locked status
WITH_MASK: the call on which the lock expires falls into the gap branch
and returns the frozen stable status WITHOUT_MASK instead of WITH_MASK. -/
theorem C4_counterexample :
    (run_smoothing (some fresh_face, initial_globals)
        (mask_status_t.without_mask ::
          List.replicate 5 mask_status_t.with_mask)).2.2.current_locked_status
      = mask_status_t.with_mask ∧
    (run_smoothing
        (run_smoothing (some fresh_face, initial_globals)
          (mask_status_t.without_mask ::
            List.replicate 5 mask_status_t.with_mask)).2
        (List.replicate 90 mask_status_t.with_mask)).1.getLast?
      = some mask_status_t.without_mask ∧
    mask_status_t.without_mask ≠ mask_status_t.with_mask := by
  decide

set_option maxRecDepth 10000 in
/-- C5 counterexample: after a lock on WITHOUT_MASK is established, feeding
the sentinel UNKNOWN for 60 frames drives the countdown to expiry with a
streak of at least 12, and the switch rule re-locks onto UNKNOWN: the locked
status equals the no-lock sentinel again. -/
theorem C5_counterexample :
    (run_smoothing (some fresh_face, initial_globals)
        (mask_status_t.with_mask ::
          List.replicate 5 mask_status_t.without_mask)).2.2.current_locked_status
      = mask_status_t.without_mask ∧
    (run_smoothing
        (run_smoothing (some fresh_face, initial_globals)
          (mask_status_t.with_mask ::
            List.replicate 5 mask_status_t.without_mask)).2
        (List.replicate 60 mask_status_t.unknown)).2.2.current_locked_status
      = mask_status_t.unknown := by
  decide






theorem C1_witness :
    (face1.history_count ≠ 0 ∧
      gC1.current_locked_status = mask_status_t.unknown) ∧
    ((5 ≤ (track_streak gC1 mask_status_t.with_mask).same_result_count →
      (apply_temporal_smoothing (some face1) mask_status_t.with_mask
          gC1).globals.current_locked_status = mask_status_t.with_mask ∧
      (apply_temporal_smoothing (some face1) mask_status_t.with_mask
          gC1).globals.lock_frames_remaining
        = (if mask_status_t.with_mask = mask_status_t.with_mask
            then 90 else 60) ∧
      (apply_temporal_smoothing (some face1) mask_status_t.with_mask
          gC1).status = mask_status_t.with_mask) ∧
    ((track_streak gC1 mask_status_t.with_mask).same_result_count < 5 →
      (apply_temporal_smoothing (some face1) mask_status_t.with_mask
          gC1).globals.current_locked_status = mask_status_t.unknown)) :=
  ⟨⟨by decide, by decide⟩,
    C1_no_lock_establishment face1 gC1 mask_status_t.with_mask
      (by decide) (by decide)⟩

theorem C2_witness :
    (face1.history_count ≠ 0 ∧
      gC2.current_locked_status = mask_status_t.with_mask ∧
      gC2.lock_frames_remaining - 1 > 0) ∧
    ((mask_status_t.without_mask = mask_status_t.without_mask →
      8 ≤ (track_streak gC2 mask_status_t.without_mask).same_result_count →
      (apply_temporal_smoothing (some face1) mask_status_t.without_mask
          gC2).globals.current_locked_status = mask_status_t.without_mask ∧
      (apply_temporal_smoothing (some face1) mask_status_t.without_mask
          gC2).globals.lock_frames_remaining = 60 ∧
      (apply_temporal_smoothing (some face1) mask_status_t.without_mask
          gC2).status = mask_status_t.without_mask) ∧
    ((track_streak gC2 mask_status_t.without_mask).same_result_count < 8 →
      (apply_temporal_smoothing (some face1) mask_status_t.without_mask
          gC2).status = mask_status_t.with_mask ∧
      (apply_temporal_smoothing (some face1) mask_status_t.without_mask
          gC2).globals.current_locked_status = mask_status_t.with_mask)) :=
  ⟨⟨by decide, by decide, by decide⟩,
    C2_fast_exit_override face1 gC2 mask_status_t.without_mask
      (by decide) (by decide) (by decide)⟩

theorem C3_witness :
    (face1.history_count ≠ 0 ∧
      gC3.current_locked_status ≠ mask_status_t.unknown ∧
      gC3.lock_frames_remaining - 1 ≤ 0) ∧
    ((12 ≤ (track_streak gC3 mask_status_t.without_mask).same_result_count →
      mask_status_t.without_mask ≠ gC3.current_locked_status →
      (apply_temporal_smoothing (some face1) mask_status_t.without_mask
          gC3).globals.current_locked_status = mask_status_t.without_mask ∧
      (apply_temporal_smoothing (some face1) mask_status_t.without_mask
          gC3).globals.lock_frames_remaining
        = (if mask_status_t.without_mask = mask_status_t.with_mask
            then 90 else 60) ∧
      (apply_temporal_smoothing (some face1) mask_status_t.without_mask
          gC3).status = mask_status_t.without_mask) ∧
    ((track_streak gC3 mask_status_t.without_mask).same_result_count < 12 →
      (apply_temporal_smoothing (some face1) mask_status_t.without_mask
          gC3).globals.current_locked_status = gC3.current_locked_status ∧
      (apply_temporal_smoothing (some face1) mask_status_t.without_mask
          gC3).globals.lock_frames_remaining = 20 ∧
      (apply_temporal_smoothing (some face1) mask_status_t.without_mask
          gC3).status = gC3.current_locked_status)) :=
  ⟨⟨by decide, by decide, by decide⟩,
    C3_expired_lock_switch_or_extend face1 gC3 mask_status_t.without_mask
      (by decide) (by decide) (by decide)⟩

theorem C4_witness :
    (face1.history_count ≠ 0 ∧
      mask_status_t.with_mask ≠ mask_status_t.unknown ∧
      (face1.stable_status = mask_status_t.with_mask ∨
        face1.stable_status = mask_status_t.unknown) ∧
      gC4.current_locked_status = mask_status_t.with_mask ∧
      (∀ x ∈ [mask_status_t.with_mask, mask_status_t.with_mask],
        x = mask_status_t.with_mask)) ∧
    (∀ out ∈ (run_smoothing (some face1, gC4)
        [mask_status_t.with_mask, mask_status_t.with_mask]).1,
      out = mask_status_t.with_mask) :=
  ⟨⟨by decide, by decide, by decide, by decide, by decide⟩,
    C4_idempotence_amended face1 mask_status_t.with_mask
      (by decide) (by decide) (by decide)
      [mask_status_t.with_mask, mask_status_t.with_mask] gC4
      (by decide) (by decide)⟩

theorem C5_witness :
    (face1.history_count ≠ 0 ∧
      gC4.current_locked_status ≠ mask_status_t.unknown ∧
      (∀ x ∈ [mask_status_t.without_mask, mask_status_t.incorrect_mask],
        x ≠ mask_status_t.unknown)) ∧
    (run_smoothing (some face1, gC4)
        [mask_status_t.without_mask, mask_status_t.incorrect_mask]).2.2.current_locked_status
      ≠ mask_status_t.unknown :=
  ⟨⟨by decide, by decide, by decide⟩,
    C5_no_unlock_amended face1 (by decide)
      [mask_status_t.without_mask, mask_status_t.incorrect_mask] gC4
      (by decide) (by decide)⟩

theorem C6_witness :
    (face1.history_count ≠ 0 ∧
      gC6.current_locked_status ≠ mask_status_t.unknown ∧
      gC6.lock_frames_remaining - 1 ≤ 0 ∧
      12 ≤ (track_streak gC6 mask_status_t.with_mask).same_result_count ∧
      mask_status_t.with_mask = gC6.current_locked_status) ∧
    ((apply_temporal_smoothing (some face1) mask_status_t.with_mask
        gC6).globals.current_locked_status = gC6.current_locked_status ∧
    (apply_temporal_smoothing (some face1) mask_status_t.with_mask
        gC6).status
      = (if face1.stable_status ≠ mask_status_t.unknown then face1.stable_status
         else mask_status_t.with_mask)) :=
  ⟨⟨by decide, by decide, by decide, by decide, by decide⟩,
    C6_expired_gap_fallback face1 gC6 mask_status_t.with_mask
      (by decide) (by decide) (by decide) (by decide) (by decide)⟩

theorem C8_witness :
    face1.history_count ≠ 0 ∧
    (apply_temporal_smoothing (some face1) mask_status_t.without_mask
        gC4).face = some face1 :=
  ⟨by decide,
    C8_face_fields_frozen face1 gC4 mask_status_t.without_mask (by decide)⟩

theorem C9_witness :
    (face1.history_count ≠ 0 ∧ face2.history_count ≠ 0 ∧
      gC1.current_locked_status = mask_status_t.unknown ∧
      mask_status_t.with_mask ≠ mask_status_t.unknown ∧
      5 ≤ (track_streak gC1 mask_status_t.with_mask).same_result_count) ∧
    ((apply_temporal_smoothing (some face1) mask_status_t.with_mask gC1).status
        = mask_status_t.with_mask ∧
    (apply_temporal_smoothing (some face2) mask_status_t.without_mask
        (apply_temporal_smoothing (some face1) mask_status_t.with_mask
          gC1).globals).status = mask_status_t.with_mask) :=
  ⟨⟨by decide, by decide, by decide, by decide, by decide⟩,
    C9_shared_lock_across_faces face1 face2 gC1
      mask_status_t.with_mask mask_status_t.without_mask
      (by decide) (by decide) (by decide) (by decide) (by decide)⟩
